import Mathlib

/-!
Shallow embedding of the agentpilot execution runtime
(`src/agentpilot/app`): the capability registry, the agent dispatcher,
the invoice-forwarding agent behavior, the executor and the job
bookkeeping of the scheduler, together with theorems settling the specification
claims about them.

Python dictionaries are modelled as functions into `Option`, Python
exceptions as an explicit `Err` error type threaded through `Except`,
wall-clock readings as `Nat` parameters (one per `datetime.now` call),
and the async database session as explicit state passing on a `DB`
value.  All definitions are translated from the source files; doc
comments cite the file each one embeds.
-/

namespace AgentPilot

/-- Python exceptions observable in the core: `KeyError` (raised by a
dict lookup miss in `registry.py` / `runtime.py`, carrying the missing
key) and an arbitrary exception raised by a plugin (connector or
action), carried as its type name and message. -/
inductive Err where
  | keyError (key : String)
  | pluginFailure (ty : String) (msg : String)
deriving DecidableEq, Repr

/-- One fetched message: a Python dict that may lack the `subject` or
`body` keys (the agent reads them with `m.get("subject", "")` /
`m.get("body", "")`). -/
structure Message where
  subject : Option String
  body : Option String
deriving DecidableEq, Repr

/-- The keyword arguments of one action invocation,
`action.run(to=..., subject=..., body=...)` in
`agents/invoice_email_agent.py` (`to` is `config.get("accounting_email")`,
hence optional; the kwarg `to` is spelled `to_addr` here because `to`
is reserved in Lean). -/
structure ActionCall where
  to_addr : Option String
  subject : String
  body : String
deriving DecidableEq, Repr

/-- Results produced by the concrete actions of the repository:
`EmailAction.run` returns `{"sent": True, "to": to, "subject": subject,
"body_len": len(body)}` (`actions/email_action.py`) and `LogAction.run`
returns `{"logged": kwargs}` (`actions/log_action.py`). -/
inductive Val where
  | emailSent (to_addr : Option String) (subject : String) (body_len : Nat)
  | logged (call : ActionCall)
deriving DecidableEq, Repr

/-- A connector instance: exposes `fetch()` returning a sequence of
records, or raising (`core/registry.py`, `Connector` protocol). -/
structure ConnectorInst where
  fetch : Except Err (List Message)

/-- An action instance: exposes `run(**kwargs)` returning a result or
raising (`core/registry.py`, `Action` protocol). -/
structure ActionInst where
  run : ActionCall → Except Err Val

/-- The `RegisteredConnector` entry of `core/registry.py`: a name-keyed factory
entry. -/
structure RegisteredConnector where
  name : String
  factory : Unit → ConnectorInst

/-- The `RegisteredAction` entry of `core/registry.py`. -/
structure RegisteredAction where
  name : String
  factory : Unit → ActionInst

/-- The `Registry` of `core/registry.py`: two private dicts mapping
names to registered factory entries. -/
structure Registry where
  connectors : String → Option RegisteredConnector
  actions : String → Option RegisteredAction

/-- Embeds `Registry.register_connector`: `self._connectors[name] =
RegisteredConnector(name=name, factory=factory)` — a plain dict store,
overwriting any previous entry. -/
def Registry.register_connector (r : Registry) (name : String)
    (factory : Unit → ConnectorInst) : Registry :=
  { r with connectors := fun n =>
      if n = name then some ⟨name, factory⟩ else r.connectors n }

/-- Embeds `Registry.register_action`: `self._actions[name] =
RegisteredAction(name=name, factory=factory)`. -/
def Registry.register_action (r : Registry) (name : String)
    (factory : Unit → ActionInst) : Registry :=
  { r with actions := fun n =>
      if n = name then some ⟨name, factory⟩ else r.actions n }

/-- Embeds `Registry.connector`: `return self._connectors[name].factory()` —
the dict lookup raises `KeyError(name)` on a miss, before any factory
runs; otherwise the factory builds a fresh instance. -/
def Registry.connector (r : Registry) (name : String) :
    Except Err ConnectorInst :=
  match r.connectors name with
  | none => .error (.keyError name)
  | some entry => .ok (entry.factory ())

/-- Embeds `Registry.action`: `return self._actions[name].factory()`. -/
def Registry.action (r : Registry) (name : String) :
    Except Err ActionInst :=
  match r.actions name with
  | none => .error (.keyError name)
  | some entry => .ok (entry.factory ())

/-- The empty registry (`Registry.__init__`). -/
def Registry.empty : Registry := ⟨fun _ => none, fun _ => none⟩

/-- Embeds `MockEmailConnector` (`connectors/mock_email.py`): `fetch` returns
a copy of the stored message list. -/
def MockEmailConnector (messages : List Message) : ConnectorInst :=
  ⟨.ok messages⟩

/-- Embeds `EmailAction` (`actions/email_action.py`): always succeeds,
returning `{"sent": True, "to": to, "subject": subject, "body_len":
len(body)}`. -/
def EmailAction : ActionInst :=
  { run := fun c => Except.ok (Val.emailSent c.to_addr c.subject c.body.length) }

/-- Embeds `LogAction` (`actions/log_action.py`): always succeeds, returning
`{"logged": kwargs}`. -/
def LogAction : ActionInst :=
  { run := fun c => Except.ok (Val.logged c) }

/-- Holds when `needle` is a leading segment of `hay` (character lists). -/
def startsWithList : List Char → List Char → Bool
  | [], _ => true
  | _ :: _, [] => false
  | a :: as, b :: bs => a = b && startsWithList as bs

/-- Holds when `needle` occurs as a contiguous segment of `hay`, the
semantics of the Python string test `needle in hay`. -/
def containsList (needle : List Char) : List Char → Bool
  | [] => startsWithList needle []
  | c :: cs => startsWithList needle (c :: cs) || containsList needle cs

/-- Python `needle in hay` for strings. -/
def strContains (hay needle : String) : Bool :=
  containsList needle.data hay.data

/-- Python `str.lower()` (ASCII range, which is all the core uses). -/
def strLower (s : String) : String :=
  ⟨s.data.map Char.toLower⟩

/-- The agent `config` dict as the invoice agent reads it:
`config.get("connector", "mock_email")`, `config.get("action",
"email")`, `config.get("accounting_email")` — three optional keys
(`agents/invoice_email_agent.py`). -/
structure Config where
  connector : Option String
  action : Option String
  accounting_email : Option String
deriving DecidableEq, Repr

/-- The dict returned by `InvoiceEmailAgent.run`: `{"inputs":
len(messages), "invoices": len(invoices), "sent": len(results)}`. -/
structure AgentResult where
  inputs : Nat
  invoices : Nat
  sent : Nat
deriving DecidableEq, Repr

/-- The filter of `InvoiceEmailAgent.run`:
`"invoice" in m.get("subject", "").lower()`. -/
def isInvoiceMessage (m : Message) : Bool :=
  strContains (strLower (m.subject.getD "")) "invoice"

/-- The keyword arguments the invoice agent passes to the action for
one invoice: `to=self.config.get("accounting_email")`,
`subject` the original subject prefixed by `FWD: ` (missing subjects
read as empty), and `body=inv.get("body", "")`. -/
def forwardCall (config : Config) (inv : Message) : ActionCall :=
  { to_addr := config.accounting_email
    subject := "FWD: " ++ inv.subject.getD ""
    body := inv.body.getD "" }

/-- The `for inv in invoices` loop of `InvoiceEmailAgent.run`: invoke
the action on each invoice in order, appending each result to
`results`; a raising invocation aborts the remaining batch (fail-fast,
no per-item catch).  Alongside the accumulated results we record the
trace of calls actually issued to the action, the observable the
source effects through `action.run(...)`. -/
def forwardLoop (action : ActionInst) (config : Config) :
    List Message → Except Err (List Val × List ActionCall)
  | [] => .ok ([], [])
  | inv :: rest =>
    match action.run (forwardCall config inv) with
    | .error e => .error e
    | .ok res =>
      match forwardLoop action config rest with
      | .error e => .error e
      | .ok (vals, calls) => .ok (res :: vals, forwardCall config inv :: calls)

/-- Embeds `InvoiceEmailAgent.run` (`agents/invoice_email_agent.py`): resolve
the connector named by config (default `"mock_email"`) from the
registry, fetch all messages, filter those whose lowered subject
contains `"invoice"`, resolve the action named by config (default
`"email"`), forward each invoice through it fail-fast, and return the
three counts.  The module-global `registry` is passed explicitly; the
second component of a successful value is the trace of action
invocations performed. -/
def InvoiceEmailAgent.run (reg : Registry) (config : Config) :
    Except Err (AgentResult × List ActionCall) :=
  match Registry.connector reg (config.connector.getD "mock_email") with
  | .error e => .error e
  | .ok email_connector =>
    match email_connector.fetch with
    | .error e => .error e
    | .ok messages =>
      let invoices := messages.filter isInvoiceMessage
      match Registry.action reg (config.action.getD "email") with
      | .error e => .error e
      | .ok action =>
        match forwardLoop action config invoices with
        | .error e => .error e
        | .ok (results, calls) =>
          .ok ({ inputs := messages.length
                 invoices := invoices.length
                 sent := results.length }, calls)

/-- The agent classes appearing in `AGENT_KIND_TO_CLASS`
(`core/runtime.py`); the repository registers exactly one. -/
inductive AgentClass where
  | invoiceEmail
deriving DecidableEq, Repr

/-- Embeds `AGENT_KIND_TO_CLASS = {InvoiceEmailAgent.kind: InvoiceEmailAgent}`
with `InvoiceEmailAgent.kind = "invoice_email"` (`core/runtime.py`). -/
def AGENT_KIND_TO_CLASS : String → Option AgentClass :=
  fun kind => if kind = "invoice_email" then some .invoiceEmail else none

/-- Embeds `agent = agent_cls(config); return await agent.run()`: construct
the resolved class with the config and invoke its entry point. -/
def constructAndRun (cls : AgentClass) (reg : Registry) (config : Config) :
    Except Err (AgentResult × List ActionCall) :=
  match cls with
  | .invoiceEmail => InvoiceEmailAgent.run reg config

/-- Embeds `run_agent` (`core/runtime.py`): `agent_cls =
AGENT_KIND_TO_CLASS[kind]` — a dict subscript, raising `KeyError(kind)`
when the kind is absent — then construct and run. -/
def run_agent (reg : Registry) (kind : String) (config : Config) :
    Except Err (AgentResult × List ActionCall) :=
  match AGENT_KIND_TO_CLASS kind with
  | none => .error (.keyError kind)
  | some cls => constructAndRun cls reg config

/-- The `agents` row (`db/models.py`, class `Agent`), restricted to the
columns the executor and scheduler read. -/
structure Agent where
  id : Nat
  kind : String
  config : Config
  schedule_seconds : Nat
  enabled : Bool
deriving DecidableEq, Repr

/-- The `runs` row (`db/models.py`, class `Run`): nullable timestamps
modelled as `Option Nat` instants. -/
structure Run where
  agent_id : Nat
  status : String
  started_at : Option Nat
  finished_at : Option Nat
  logs : String
deriving DecidableEq, Repr

/-- The durable store the executor sessions touch: agents by primary
key, runs as an id-keyed table, and the autoincrement counter handing
out the next run id. -/
structure DB where
  agents : Nat → Option Agent
  runs : List (Nat × Run)
  nextRunId : Nat

/-- Embeds `session.get(Run, run_id)`: first row with the given primary key. -/
def getRun (runs : List (Nat × Run)) (run_id : Nat) : Option Run :=
  match runs.find? (fun p => p.fst = run_id) with
  | none => none
  | some p => some p.snd

/-- Persisting a mutated run row under its primary key. -/
def setRun (runs : List (Nat × Run)) (run_id : Nat) (r : Run) :
    List (Nat × Run) :=
  runs.map (fun p => if p.fst = run_id then (p.fst, r) else p)

/-- Embeds `json.dumps(result)` for the result dict of the invoice
agent, with the default Python separators. -/
def jsonDumps (r : AgentResult) : String :=
  "\x7b\"inputs\": " ++ toString r.inputs ++
    ", \"invoices\": " ++ toString r.invoices ++
    ", \"sent\": " ++ toString r.sent ++ "\x7d"

/-- Embeds the error text the executor stores into `logs`: the
exception type name, a colon and a space, then the exception message.
Python renders `KeyError(k)` as the repr of the key, hence the quotes
around it. -/
def errStr : Err → String
  | .keyError k => "KeyError: " ++ "\x27" ++ k ++ "\x27"
  | .pluginFailure ty msg => ty ++ ": " ++ msg

/-- What a call to an executor coroutine does besides touching the
store: return a dict normally (either the `{"error": ...}` structured
result or the result dict of the agent), or propagate an exception. -/
inductive ExecOutcome where
  | errorDict (msg : String)
  | result (r : AgentResult)
  | raised (e : Err)
deriving DecidableEq, Repr

/-- Embeds `execute_agent_by_id` (`core/executor.py`): load the agent (early
structured-error return when absent), insert a fresh run row with
status `running` and `started_at` from the first clock reading `t1`,
dispatch through `run_agent`; on success stamp `success` and the JSON
logs, on exception stamp `error` and the exception text and re-raise;
in both cases the `finally` block stamps `finished_at` from the second
clock reading `t2` and the session commit persists the final row. -/
def execute_agent_by_id (reg : Registry) (db : DB) (t1 t2 : Nat)
    (agent_id : Nat) : DB × ExecOutcome :=
  match db.agents agent_id with
  | none => (db, .errorDict ("Agent " ++ toString agent_id ++ " not found"))
  | some agent =>
    let run : Run :=
      { agent_id := agent.id, status := "running",
        started_at := some t1, finished_at := none, logs := "" }
    match run_agent reg agent.kind agent.config with
    | .ok result =>
      let final := { run with status := "success",
                              logs := jsonDumps result.fst,
                              finished_at := some t2 }
      ({ db with runs := db.runs ++ [(db.nextRunId, final)],
                 nextRunId := db.nextRunId + 1 },
       .result result.fst)
    | .error exc =>
      let final := { run with status := "error",
                              logs := errStr exc,
                              finished_at := some t2 }
      ({ db with runs := db.runs ++ [(db.nextRunId, final)],
                 nextRunId := db.nextRunId + 1 },
       .raised exc)

/-- Embeds `execute_run` (`core/executor.py`): load the run row and its agent
(early structured-error returns, touching nothing, when either is
absent), restamp the existing row to `running`/`started_at := t1`, then
the same dispatch / success / error / `finally` shape as
`execute_agent_by_id`, persisting the mutated row under its id. -/
def execute_run (reg : Registry) (db : DB) (t1 t2 : Nat)
    (run_id : Nat) : DB × ExecOutcome :=
  match getRun db.runs run_id with
  | none => (db, .errorDict ("Run " ++ toString run_id ++ " not found"))
  | some run0 =>
    match db.agents run0.agent_id with
    | none =>
      (db, .errorDict ("Agent " ++ toString run0.agent_id ++ " not found"))
    | some agent =>
      let run := { run0 with status := "running", started_at := some t1 }
      match run_agent reg agent.kind agent.config with
      | .ok result =>
        let final := { run with status := "success",
                                logs := jsonDumps result.fst,
                                finished_at := some t2 }
        ({ db with runs := setRun db.runs run_id final }, .result result.fst)
      | .error exc =>
        let final := { run with status := "error",
                                logs := errStr exc,
                                finished_at := some t2 }
        ({ db with runs := setRun db.runs run_id final }, .raised exc)

/-- One APScheduler job as `AgentScheduler` creates it
(`scheduler/loop.py`): a string job id `agent-<agent_id>`, the interval
period of the interval trigger in seconds, and the agent id the
firing closure hands
to `execute_agent_by_id`. -/
structure Job where
  id : String
  seconds : Nat
  agent_id : Nat
deriving DecidableEq, Repr

/-- Models the APScheduler `get_job`: the job with the given id, if
installed. -/
def get_job (jobs : List Job) (job_id : String) : Option Job :=
  jobs.find? (fun j => j.id = job_id)

/-- Models the APScheduler `remove_job`: drop the job with the given id. -/
def remove_job (jobs : List Job) (job_id : String) : List Job :=
  jobs.filter (fun j => j.id ≠ job_id)

/-- Models the APScheduler `add_job` with `replace_existing=True`: any
job already stored under the same id is replaced by the new one. -/
def add_job (jobs : List Job) (j : Job) : List Job :=
  remove_job jobs j.id ++ [j]

/-- Embeds `AgentScheduler.add_or_update_job` (`scheduler/loop.py`):
the job id is the agent id under the `agent-` tag; if
`get_job(job_id)` finds a live
timer, `remove_job(job_id)` tears it down; then `add_job` installs a
fresh interval timer for `agent_id` under that id. -/
def add_or_update_job (jobs : List Job) (agent_id seconds : Nat) :
    List Job :=
  let job_id := "agent-" ++ toString agent_id
  let jobs1 :=
    match get_job jobs job_id with
    | some _ => remove_job jobs job_id
    | none => jobs
  add_job jobs1 { id := job_id, seconds := seconds, agent_id := agent_id }

/-! Helper lemmas shared between the claims. -/

theorem remove_job_filter_id (jobs : List Job) (job_id : String) :
    (remove_job jobs job_id).filter (fun j => j.id = job_id) = [] := by
  induction jobs with
  | nil => rfl
  | cons j rest ih =>
    by_cases h : j.id = job_id
    · simp [remove_job, List.filter_cons, h]
    · simp [remove_job, List.filter_cons, h]

theorem add_job_filter_id (jobs : List Job) (j : Job) :
    (add_job jobs j).filter (fun x => x.id = j.id) = [j] := by
  simp [add_job, List.filter_append, remove_job_filter_id, List.filter_cons]

theorem add_or_update_job_filter_id (jobs : List Job) (aid n : Nat) :
    (add_or_update_job jobs aid n).filter
        (fun j => j.id = "agent-" ++ toString aid) =
      [{ id := "agent-" ++ toString aid, seconds := n, agent_id := aid }] := by
  cases h : get_job jobs ("agent-" ++ toString aid)
  · simp only [add_or_update_job, h]
    exact add_job_filter_id jobs
      { id := "agent-" ++ toString aid, seconds := n, agent_id := aid }
  · simp only [add_or_update_job, h]
    exact add_job_filter_id (remove_job jobs ("agent-" ++ toString aid))
      { id := "agent-" ++ toString aid, seconds := n, agent_id := aid }

theorem forwardLoop_ok (action : ActionInst) (config : Config)
    (invs : List Message) (vals : List Val) (calls : List ActionCall)
    (h : forwardLoop action config invs = .ok (vals, calls)) :
    vals.length = invs.length ∧ calls = invs.map (forwardCall config) := by
  induction invs generalizing vals calls with
  | nil =>
    simp [forwardLoop] at h
    simp [h.1, h.2]
  | cons inv rest ih =>
    simp only [forwardLoop] at h
    cases hr : action.run (forwardCall config inv) with
    | error e => simp [hr] at h
    | ok res =>
      rw [hr] at h
      cases hl : forwardLoop action config rest with
      | error e => simp [hl] at h
      | ok p =>
        rw [hl] at h
        obtain ⟨vs, cs⟩ := p
        simp at h
        obtain ⟨hv, hc⟩ := h
        obtain ⟨ih1, ih2⟩ := ih vs cs hl
        subst hv hc
        simp [ih1, ih2]

theorem forwardLoop_total (action : ActionInst) (config : Config)
    (invs : List Message)
    (hok : ∀ c, ∃ v, action.run c = .ok v) :
    ∃ vals, forwardLoop action config invs =
      .ok (vals, invs.map (forwardCall config)) ∧
      vals.length = invs.length := by
  induction invs with
  | nil => exact ⟨[], rfl, rfl⟩
  | cons inv rest ih =>
    obtain ⟨v, hv⟩ := hok (forwardCall config inv)
    obtain ⟨vals, hloop, hlen⟩ := ih
    refine ⟨v :: vals, ?_, by simp [hlen]⟩
    simp [forwardLoop, hv, hloop]

/-! Concrete fixtures used by scenario claims and witnesses. -/

/-- Three fetched messages, exactly one of which has subject
`"Invoice #4"` (Scenario 1 of the spec). -/
def scenarioMessages : List Message :=
  [ { subject := some "Invoice #4", body := some "please pay" },
    { subject := some "Hello", body := some "hi there" },
    { subject := some "Team lunch", body := none } ]

/-- A config that leaves connector and action at their defaults and
names an accounting address. -/
def scenarioConfig : Config :=
  { connector := none, action := none,
    accounting_email := some "accounting@example.com" }

/-- Registry with `"mock_email"` serving `scenarioMessages` and the
stock `"email"` action, as `core/bootstrap.py` wires them. -/
def scenarioRegistry : Registry :=
  (Registry.empty.register_connector "mock_email"
      (fun _ => MockEmailConnector scenarioMessages)).register_action
    "email" (fun _ => EmailAction)

/-- Registry whose `"mock_email"` connector returns no messages
(Scenario 2 of the spec). -/
def emptyFeedRegistry : Registry :=
  (Registry.empty.register_connector "mock_email"
      (fun _ => MockEmailConnector [])).register_action
    "email" (fun _ => EmailAction)

/-- An action that raises `RuntimeError("boom")` on the second of the
forwarded scenario subjects and succeeds otherwise (the Scenario 4
plugin of the spec). -/
def flakyAction : ActionInst :=
  { run := fun c =>
      if c.subject = "FWD: invoice b"
      then Except.error (Err.pluginFailure "RuntimeError" "boom")
      else Except.ok (Val.logged c) }

/-- Three invoice messages, the second of which makes `flakyAction`
raise. -/
def flakyMessages : List Message :=
  [ { subject := some "invoice a", body := some "a" },
    { subject := some "invoice b", body := some "b" },
    { subject := some "invoice c", body := some "c" } ]

/-- Registry driving Scenario 4: all three messages match the filter
and the action fails on the second invocation. -/
def flakyRegistry : Registry :=
  (Registry.empty.register_connector "mock_email"
      (fun _ => MockEmailConnector flakyMessages)).register_action
    "email" (fun _ => flakyAction)

/-- A store holding the single enabled invoice agent with id 1 and no
runs yet. -/
def scenarioDB : DB :=
  { agents := fun i =>
      if i = 1 then
        some { id := 1, kind := "invoice_email", config := scenarioConfig,
               schedule_seconds := 300, enabled := true }
      else none,
    runs := [], nextRunId := 1 }

/-! The claims.

Each claim of the specification is settled by one theorem below,
with a closed witness instantiating it whenever it carries
hypotheses. -/

/-- C6: for every name that has not been registered,
`Registry.connector(name)` and `Registry.action(name)` fail with the
lookup error naming the missing identifier (`KeyError(name)`, the
specification name `NotFound`), and never return a (partially constructed)
component. -/
theorem registry_unknown_name_not_found (reg : Registry) (name : String)
    (hc : reg.connectors name = none) (ha : reg.actions name = none) :
    Registry.connector reg name = .error (.keyError name) ∧
    Registry.action reg name = .error (.keyError name) ∧
    (∀ c, Registry.connector reg name ≠ .ok c) ∧
    (∀ a, Registry.action reg name ≠ .ok a) := by
  refine ⟨?_, ?_, ?_, ?_⟩ <;>
    simp [Registry.connector, Registry.action, hc, ha]

/-- Witness for C6 at the empty registry and the name `"imap"`. -/
theorem registry_unknown_name_not_found_witness :
    Registry.connector Registry.empty "imap" =
      .error (.keyError "imap") ∧
    Registry.action Registry.empty "imap" =
      .error (.keyError "imap") := by
  obtain ⟨h1, h2, -, -⟩ :=
    registry_unknown_name_not_found Registry.empty "imap" rfl rfl
  exact ⟨h1, h2⟩

/-- C7: `run_agent` fails with the unknown-kind lookup error
(`KeyError(kind)`, named `UnknownAgentKind` by the spec) for every kind absent
from `AGENT_KIND_TO_CLASS`, and for every kind present it constructs
the mapped behavior with the config, invokes its entry point, and
returns the result of that behavior unchanged. -/
theorem run_agent_dispatch (reg : Registry) (kind : String)
    (config : Config) :
    (AGENT_KIND_TO_CLASS kind = none →
      run_agent reg kind config = .error (.keyError kind)) ∧
    (∀ cls, AGENT_KIND_TO_CLASS kind = some cls →
      run_agent reg kind config = constructAndRun cls reg config) ∧
    (kind = "invoice_email" →
      run_agent reg kind config = InvoiceEmailAgent.run reg config) := by
  refine ⟨fun h => by simp [run_agent, h], fun cls h => by simp [run_agent, h],
    fun h => ?_⟩
  subst h
  simp [run_agent, AGENT_KIND_TO_CLASS, constructAndRun]

/-- Witness for C7: the unregistered kind `"rss_digest"` fails with
`KeyError("rss_digest")`, and the registered kind `"invoice_email"`
returns exactly what the invoice behavior produces. -/
theorem run_agent_dispatch_witness :
    run_agent scenarioRegistry "rss_digest" scenarioConfig =
      .error (.keyError "rss_digest") ∧
    run_agent scenarioRegistry "invoice_email" scenarioConfig =
      InvoiceEmailAgent.run scenarioRegistry scenarioConfig := by
  exact ⟨(run_agent_dispatch scenarioRegistry "rss_digest" scenarioConfig).1 rfl,
    (run_agent_dispatch scenarioRegistry "invoice_email" scenarioConfig).2.2 rfl⟩

/-- C8: `add_or_update_job` is idempotent per agent id — after two
calls for the same id, the job store holds exactly one timer under
the job id of that agent, firing at the interval of the later call;
the timer of the earlier interval is gone. -/
theorem add_or_update_job_idempotent (jobs : List Job) (aid n1 n2 : Nat) :
    (add_or_update_job (add_or_update_job jobs aid n1) aid n2).filter
        (fun j => j.id = "agent-" ++ toString aid) =
      [{ id := "agent-" ++ toString aid, seconds := n2, agent_id := aid }] :=
  add_or_update_job_filter_id (add_or_update_job jobs aid n1) aid n2

/-- C9: registering a connector or action under an already-registered
name overwrites the prior entry without error, and a subsequent lookup
returns the component built by the most recently registered factory. -/
theorem register_last_write_wins (reg : Registry) (name : String)
    (f1 f2 : Unit → ConnectorInst) (g1 g2 : Unit → ActionInst) :
    Registry.connector
        ((reg.register_connector name f1).register_connector name f2)
        name = .ok (f2 ()) ∧
    Registry.action
        ((reg.register_action name g1).register_action name g2)
        name = .ok (g2 ()) := by
  constructor <;>
    simp [Registry.connector, Registry.action,
      Registry.register_connector, Registry.register_action]

/-- C4: with a connector serving 3 messages of which exactly one has
subject `"Invoice #4"`, the invoice agent returns `{inputs: 3,
invoices: 1, sent: 1}`; with a connector serving 0 messages it returns
`{inputs: 0, invoices: 0, sent: 0}` and issues no action invocation
(empty call trace). -/
theorem invoice_agent_scenarios :
    InvoiceEmailAgent.run scenarioRegistry scenarioConfig =
      .ok ({ inputs := 3, invoices := 1, sent := 1 },
        [{ to_addr := some "accounting@example.com",
           subject := "FWD: Invoice #4", body := "please pay" }]) ∧
    InvoiceEmailAgent.run emptyFeedRegistry scenarioConfig =
      .ok ({ inputs := 0, invoices := 0, sent := 0 }, []) :=
  ⟨rfl, rfl⟩

/-- C5: whenever the configured connector (default name `"mock_email"`)
fetches a message list and the configured action (default name
`"email"`) succeeds on every call, the invoice agent keeps exactly the
messages whose subject contains `"invoice"` case-insensitively,
invokes the action once per kept message with `to` the accounting
email, `subject` the original subject under `"FWD: "`, and `body` the
original body, and returns the fetched / matched / forwarded counts. -/
theorem invoice_agent_filters_and_forwards (reg : Registry)
    (config : Config) (entryC : RegisteredConnector) (msgs : List Message)
    (entryA : RegisteredAction)
    (hc : reg.connectors (config.connector.getD "mock_email") = some entryC)
    (hf : (entryC.factory ()).fetch = .ok msgs)
    (ha : reg.actions (config.action.getD "email") = some entryA)
    (hok : ∀ c, ∃ v, (entryA.factory ()).run c = .ok v) :
    InvoiceEmailAgent.run reg config =
      .ok ({ inputs := msgs.length,
             invoices := (msgs.filter isInvoiceMessage).length,
             sent := (msgs.filter isInvoiceMessage).length },
        (msgs.filter isInvoiceMessage).map (forwardCall config)) := by
  obtain ⟨vals, hloop, hlen⟩ :=
    forwardLoop_total (entryA.factory ()) config
      (msgs.filter isInvoiceMessage) hok
  simp [InvoiceEmailAgent.run, Registry.connector, Registry.action,
    hc, hf, ha, hloop, hlen]

/-- Witness for C5 at the Scenario-1 fixtures. -/
theorem invoice_agent_filters_and_forwards_witness :
    InvoiceEmailAgent.run scenarioRegistry scenarioConfig =
      .ok ({ inputs := scenarioMessages.length,
             invoices := (scenarioMessages.filter isInvoiceMessage).length,
             sent := (scenarioMessages.filter isInvoiceMessage).length },
        (scenarioMessages.filter isInvoiceMessage).map
          (forwardCall scenarioConfig)) :=
  invoice_agent_filters_and_forwards scenarioRegistry scenarioConfig
    { name := "mock_email", factory := fun _ => MockEmailConnector scenarioMessages }
    scenarioMessages
    { name := "email", factory := fun _ => EmailAction }
    rfl rfl rfl
    (fun c => ⟨Val.emailSent c.to_addr c.subject c.body.length, rfl⟩)

/-- C10: every normal return of the invoice agent satisfies
`sent = invoices` and `invoices ≤ inputs`: the sent count is the length
of the per-invoice results list, which the fail-fast loop can only
shorten by aborting the whole run. -/
theorem invoice_agent_counts_invariant (reg : Registry) (config : Config)
    (r : AgentResult) (calls : List ActionCall)
    (h : InvoiceEmailAgent.run reg config = .ok (r, calls)) :
    r.sent = r.invoices ∧ r.invoices ≤ r.inputs := by
  unfold InvoiceEmailAgent.run at h
  cases hc : Registry.connector reg (config.connector.getD "mock_email") with
  | error e => simp [hc] at h
  | ok conn =>
    cases hf : conn.fetch with
    | error e => simp [hc, hf] at h
    | ok messages =>
      cases ha : Registry.action reg (config.action.getD "email") with
      | error e => simp [hc, hf, ha] at h
      | ok action =>
        cases hl : forwardLoop action config
            (messages.filter isInvoiceMessage) with
        | error e => simp [hc, hf, ha, hl] at h
        | ok p =>
          obtain ⟨vals, cs⟩ := p
          simp only [hc, hf, ha, hl] at h
          obtain ⟨hlen, -⟩ :=
            forwardLoop_ok action config _ vals cs hl
          obtain ⟨hr, -⟩ := Prod.mk.injEq .. ▸ (Except.ok.injEq .. ▸ h)
          subst hr
          refine ⟨by simpa using hlen, ?_⟩
          simpa using List.length_filter_le isInvoiceMessage messages

/-- Witness for C10 at the Scenario-1 fixtures. -/
theorem invoice_agent_counts_invariant_witness :
    ({ inputs := 3, invoices := 1, sent := 1 } : AgentResult).sent =
      ({ inputs := 3, invoices := 1, sent := 1 } : AgentResult).invoices ∧
    ({ inputs := 3, invoices := 1, sent := 1 } : AgentResult).invoices ≤
      ({ inputs := 3, invoices := 1, sent := 1 } : AgentResult).inputs :=
  invoice_agent_counts_invariant scenarioRegistry scenarioConfig
    { inputs := 3, invoices := 1, sent := 1 }
    [{ to_addr := some "accounting@example.com",
       subject := "FWD: Invoice #4", body := "please pay" }]
    rfl

/-- C1: in both `execute_agent_by_id` and `execute_run`, when the run
record exists and the dispatched behavior raises `e`, the persisted
record carries status `"error"` (never `"running"`), logs holding the
error type and message (`errStr e`), both timestamps stamped, and the
exception is then propagated to the caller as the outcome of the call. -/
theorem executor_records_plugin_failure (reg : Registry) (db : DB)
    (t1 t2 : Nat) :
    (∀ aid agent e, db.agents aid = some agent →
      run_agent reg agent.kind agent.config = .error e →
      execute_agent_by_id reg db t1 t2 aid =
        ({ db with
             runs := db.runs ++ [(db.nextRunId,
               { agent_id := agent.id, status := "error",
                 started_at := some t1, finished_at := some t2,
                 logs := errStr e })],
             nextRunId := db.nextRunId + 1 },
         .raised e)) ∧
    (∀ rid run0 agent e, getRun db.runs rid = some run0 →
      db.agents run0.agent_id = some agent →
      run_agent reg agent.kind agent.config = .error e →
      execute_run reg db t1 t2 rid =
        ({ db with
           runs := setRun db.runs rid
             { run0 with
               status := "error"
               started_at := some t1
               finished_at := some t2
               logs := errStr e } },
         .raised e)) := by
  constructor
  · intro aid agent e hA hR
    simp [execute_agent_by_id, hA, hR]
  · intro rid run0 agent e hRun hA hR
    simp [execute_run, hRun, hA, hR]

/-- Witness for C1: Scenario 4 — three invoices, the action raising
`RuntimeError("boom")` on the second invocation; the stored record
ends in status `"error"` with the error text, and the failure is
raised to the caller. -/
theorem executor_records_plugin_failure_witness :
    execute_agent_by_id flakyRegistry scenarioDB 10 20 1 =
      ({ scenarioDB with
           runs := scenarioDB.runs ++ [(scenarioDB.nextRunId,
             { agent_id := 1, status := "error", started_at := some 10,
               finished_at := some 20,
               logs := errStr (.pluginFailure "RuntimeError" "boom") })],
           nextRunId := scenarioDB.nextRunId + 1 },
       .raised (.pluginFailure "RuntimeError" "boom")) :=
  (executor_records_plugin_failure flakyRegistry scenarioDB 10 20).1 1
    { id := 1, kind := "invoice_email", config := scenarioConfig,
      schedule_seconds := 300, enabled := true }
    (.pluginFailure "RuntimeError" "boom") rfl rfl

/-- C2: whenever an executor call creates (or restarts) a run record —
that is, the lookups succeed — the final store holds that record
exactly once with a terminal status, `started_at = t1`,
`finished_at = t2` non-null, and, the clock readings being ordered,
`finished_at ≥ started_at`; this holds whether the behavior succeeded
or raised. -/
theorem executor_terminal_run_stamped (reg : Registry) (db : DB)
    (t1 t2 : Nat) (hT : t1 ≤ t2) :
    (∀ aid agent, db.agents aid = some agent →
      ∃ final : Run,
        (execute_agent_by_id reg db t1 t2 aid).fst.runs =
          db.runs ++ [(db.nextRunId, final)] ∧
        (execute_agent_by_id reg db t1 t2 aid).fst.nextRunId =
          db.nextRunId + 1 ∧
        (final.status = "success" ∨ final.status = "error") ∧
        final.started_at = some t1 ∧ final.finished_at = some t2 ∧
        (∀ s f, final.started_at = some s → final.finished_at = some f →
          s ≤ f)) ∧
    (∀ rid run0 agent, getRun db.runs rid = some run0 →
      db.agents run0.agent_id = some agent →
      ∃ final : Run,
        (execute_run reg db t1 t2 rid).fst.runs = setRun db.runs rid final ∧
        (final.status = "success" ∨ final.status = "error") ∧
        final.started_at = some t1 ∧ final.finished_at = some t2 ∧
        (∀ s f, final.started_at = some s → final.finished_at = some f →
          s ≤ f)) := by
  have stamp : ∀ final : Run, final.started_at = some t1 →
      final.finished_at = some t2 →
      ∀ s f, final.started_at = some s → final.finished_at = some f →
        s ≤ f := by
    intro final h1 h2 s f hs hf
    rw [h1, Option.some.injEq] at hs
    rw [h2, Option.some.injEq] at hf
    omega
  constructor
  · intro aid agent hA
    cases hR : run_agent reg agent.kind agent.config with
    | ok result =>
      refine ⟨{ agent_id := agent.id
                status := "success"
                started_at := some t1
                finished_at := some t2
                logs := jsonDumps result.fst }, ?_, ?_, Or.inl rfl, rfl, rfl,
        stamp _ rfl rfl⟩ <;>
        simp [execute_agent_by_id, hA, hR]
    | error exc =>
      refine ⟨{ agent_id := agent.id
                status := "error"
                started_at := some t1
                finished_at := some t2
                logs := errStr exc }, ?_, ?_, Or.inr rfl, rfl, rfl,
        stamp _ rfl rfl⟩ <;>
        simp [execute_agent_by_id, hA, hR]
  · intro rid run0 agent hRun hA
    cases hR : run_agent reg agent.kind agent.config with
    | ok result =>
      refine ⟨{ run0 with
                status := "success"
                started_at := some t1
                finished_at := some t2
                logs := jsonDumps result.fst }, ?_, Or.inl rfl, rfl, rfl,
        stamp _ rfl rfl⟩
      simp [execute_run, hRun, hA, hR]
    | error exc =>
      refine ⟨{ run0 with
                status := "error"
                started_at := some t1
                finished_at := some t2
                logs := errStr exc }, ?_, Or.inr rfl, rfl, rfl,
        stamp _ rfl rfl⟩
      simp [execute_run, hRun, hA, hR]

/-- Witness for C2 on the Scenario-1 store at clock readings 10 and
20. -/
theorem executor_terminal_run_stamped_witness :
    ∃ final : Run,
      (execute_agent_by_id scenarioRegistry scenarioDB 10 20 1).fst.runs =
        scenarioDB.runs ++ [(scenarioDB.nextRunId, final)] ∧
      (execute_agent_by_id scenarioRegistry scenarioDB 10 20 1).fst.nextRunId =
        scenarioDB.nextRunId + 1 ∧
      (final.status = "success" ∨ final.status = "error") ∧
      final.started_at = some 10 ∧ final.finished_at = some 20 ∧
      (∀ s f, final.started_at = some s → final.finished_at = some f →
        s ≤ f) :=
  (executor_terminal_run_stamped scenarioRegistry scenarioDB 10 20
      (by decide)).1 1
    { id := 1, kind := "invoice_email", config := scenarioConfig,
      schedule_seconds := 300, enabled := true } rfl

/-- C3: a missing agent id makes `execute_agent_by_id` return the
structured result `{"error": "Agent <id> not found"}` with the store
untouched (no run record created or mutated), and `execute_run` on a
missing run id, or on a run whose referenced agent is missing, likewise
returns a structured error result and leaves the store untouched. -/
theorem executor_not_found_structured (reg : Registry) (db : DB)
    (t1 t2 : Nat) :
    (∀ aid, db.agents aid = none →
      execute_agent_by_id reg db t1 t2 aid =
        (db, .errorDict ("Agent " ++ toString aid ++ " not found"))) ∧
    (∀ rid, getRun db.runs rid = none →
      execute_run reg db t1 t2 rid =
        (db, .errorDict ("Run " ++ toString rid ++ " not found"))) ∧
    (∀ rid run0, getRun db.runs rid = some run0 →
      db.agents run0.agent_id = none →
      execute_run reg db t1 t2 rid =
        (db, .errorDict
          ("Agent " ++ toString run0.agent_id ++ " not found"))) := by
  refine ⟨fun aid hA => ?_, fun rid hRun => ?_, fun rid run0 hRun hA => ?_⟩
  · simp [execute_agent_by_id, hA]
  · simp [execute_run, hRun]
  · simp [execute_run, hRun, hA]

/-- Witness for C3: agent id 7 is absent from the Scenario-1 store and
run id 3 is absent from its empty run table. -/
theorem executor_not_found_structured_witness :
    execute_agent_by_id scenarioRegistry scenarioDB 10 20 7 =
      (scenarioDB, .errorDict "Agent 7 not found") ∧
    execute_run scenarioRegistry scenarioDB 10 20 3 =
      (scenarioDB, .errorDict "Run 3 not found") :=
  ⟨(executor_not_found_structured scenarioRegistry scenarioDB 10 20).1 7 rfl,
   (executor_not_found_structured scenarioRegistry scenarioDB 10 20).2.1 3 rfl⟩

end AgentPilot
